import Mathlib

/-!
Verification development for the `ocralign` OCR pipeline
(`src/ocralign/ocr.py`): a shallow embedding of `write_to_txt`,
`_page_to_pil_image` and `process_pdf`, together with theorems settling
the specified properties.

External collaborators (the PyMuPDF document library, the OCR recognizer
`process_page`, and the file system) are modelled as an explicit
environment of oracles; side effects (file writes, closing the document
handle) are recorded as explicit events in the run result.
-/

deriving instance DecidableEq for Except

/-- Pixel mode of a decoded raster image, as in PIL (`"RGB"` / `"RGBA"`). -/
inductive PixMode where
  | RGB
  | RGBA
deriving DecidableEq

/-- One page of a document: intrinsic size in points (PDF user space,
72 units per inch), whether the source page declares transparency, and an
abstract content token that the rendering and recognition oracles key on. -/
structure PDFPage where
  width_pt : ℚ
  height_pt : ℚ
  transparent : Bool
  content : ℕ
deriving DecidableEq

/-- A document handle: an ordered collection of pages.
`doc.page_count` in the source is `doc.pages.length` here. -/
structure PDFDocument where
  pages : List PDFPage
deriving DecidableEq

/-- Result of `fitz.Page.get_pixmap`: dimensions, whether an alpha channel
is present, and the raw sample bytes. -/
structure Pixmap where
  width : ℤ
  height : ℤ
  alpha : Bool
  samples : List ℕ
deriving DecidableEq

/-- Result of `PIL.Image.frombytes`: mode, dimensions and pixel data. -/
structure RasterImage where
  mode : PixMode
  width : ℤ
  height : ℤ
  data : List ℕ
deriving DecidableEq

/-- Environment of external collaborators, modelled as oracles:
opening a document at a path (`fitz.open`), rasterization failure on a
corrupt page (`get_pixmap` raising), the raster sample bytes produced for
a page at a given zoom, the OCR recognizer (`process_page`), and failure
to open an output path for writing. Errors are opaque values (strings),
standing for the exception a collaborator raises. -/
structure Env where
  openDoc : String → Except String PDFDocument
  renderFail : PDFPage → Option String
  samplesOf : PDFPage → ℚ → List ℕ
  recognize : RasterImage → Except String String
  writeFail : String → Option String

/-- Embedding of `doc.load_page(page_index)`: returns the page at the
given zero-based index, raising when the index is out of range. -/
def load_page (doc : PDFDocument) (i : ℕ) : Except String PDFPage :=
  match doc.pages.get? i with
  | some p => Except.ok p
  | none => Except.error "page not in document"

/-- Embedding of `page.get_pixmap(matrix=fitz.Matrix(zoomX, zoomY), alpha=alpha)`.
This call lives in PyMuPDF, outside this repository; it is modelled from
the documented PyMuPDF interface: the `alpha` keyword decides whether the
produced pixmap carries an alpha channel (so `pix.alpha` equals the
argument), and — per the rounding policy the spec states — the pixel
dimensions are `round(page_size_pt * zoom)` on each axis. Rasterization
failure on a corrupt page is the `renderFail` oracle. -/
def get_pixmap (env : Env) (page : PDFPage) (zoomX zoomY : ℚ) (alpha : Bool) :
    Except String Pixmap :=
  match env.renderFail page with
  | some e => Except.error e
  | none => Except.ok
      { width := round (page.width_pt * zoomX)
        height := round (page.height_pt * zoomY)
        alpha := alpha
        samples := env.samplesOf page zoomX }

/-- Embedding of `PIL.Image.frombytes(mode, (width, height), samples)`. -/
def frombytes (mode : PixMode) (width height : ℤ) (samples : List ℕ) : RasterImage :=
  { mode := mode, width := width, height := height, data := samples }

/-- Embedding of `_page_to_pil_image(page, dpi)` (ocr.py lines 29-40):
`zoom = dpi / 72.0`, `mat = fitz.Matrix(zoom, zoom)`,
`pix = page.get_pixmap(matrix=mat, alpha=False)`,
`mode = "RGBA" if pix.alpha else "RGB"`,
`img = Image.frombytes(mode, (pix.width, pix.height), pix.samples)`. -/
def _page_to_pil_image (env : Env) (page : PDFPage) (dpi : ℤ) :
    Except String RasterImage := do
  let zoom : ℚ := (dpi : ℚ) / 72
  let pix ← get_pixmap env page zoom zoom false
  let mode := if pix.alpha then PixMode.RGBA else PixMode.RGB
  pure (frombytes mode pix.width pix.height pix.samples)

/-- Body of one iteration of the page loop in `process_pdf`
(ocr.py lines 76-78): `page = doc.load_page(page_index)`,
`image = _page_to_pil_image(page, dpi=dpi)`, `text = process_page(image)`. -/
def pageResult (env : Env) (doc : PDFDocument) (dpi : ℤ) (i : ℕ) :
    Except String String := do
  let page ← load_page doc i
  let image ← _page_to_pil_image env page dpi
  env.recognize image

/-- The page loop of `process_pdf` (ocr.py lines 74-79) over a list of page
indices: each page is fully processed before the next begins; the texts are
accumulated in iteration order; the first exception aborts the loop. -/
def processLoop (env : Env) (doc : PDFDocument) (dpi : ℤ) :
    List ℕ → Except String (List String)
  | [] => Except.ok []
  | i :: rest => do
    let text ← pageResult env doc dpi i
    let tail ← processLoop env doc dpi rest
    pure (text :: tail)

/-- Python `str.isspace` on a single character: the characters `str.strip()`
removes. Covers the ASCII whitespace and the Unicode whitespace characters
Python treats as space. -/
def pyIsSpace (c : Char) : Bool :=
  (0x09 ≤ c.val && c.val ≤ 0x0d) || (0x1c ≤ c.val && c.val ≤ 0x1f) ||
  c.val = 0x20 || c.val = 0x85 || c.val = 0xa0 || c.val = 0x1680 ||
  (0x2000 ≤ c.val && c.val ≤ 0x200a) ||
  c.val = 0x2028 || c.val = 0x2029 || c.val = 0x202f || c.val = 0x205f ||
  c.val = 0x3000

/-- Python `s.strip()`: remove leading and trailing whitespace. -/
def pyStrip (s : String) : String :=
  String.mk (((s.data.dropWhile pyIsSpace).reverse.dropWhile pyIsSpace).reverse)

/-- The accumulation loop of `write_to_txt` (ocr.py lines 18-21), with the
running page number made explicit: starting at page number `pg_no`, append
for each page text the block
`"-- Page " ++ toString (pg_no + 1) ++ " --\n" ++ pyStrip text ++ "\n\n"`. -/
def full_doc_text_from (pg_no : ℕ) : List String → String
  | [] => ""
  | text :: rest =>
      "-- Page " ++ toString (pg_no + 1) ++ " --\n" ++ pyStrip text ++ "\n\n"
        ++ full_doc_text_from (pg_no + 1) rest

/-- The full transcript `full_doc_text` built by `write_to_txt`
(ocr.py lines 18-21), starting from page number 0. -/
def full_doc_text (text_pages : List String) : String :=
  full_doc_text_from 0 text_pages

/-- Embedding of `write_to_txt(output_path, text_pages)` (ocr.py lines
17-26): format the transcript and write it to the path; opening the path
for writing may fail (the `writeFail` oracle), in which case nothing is
written. On success the returned event list records the single write. -/
def write_to_txt (env : Env) (output_path : String) (text_pages : List String) :
    Except String (List (String × String)) :=
  match env.writeFail output_path with
  | some e => Except.error e
  | none => Except.ok [(output_path, full_doc_text text_pages)]

/-- Python truthiness of the `output_path` argument (`if output_path:`):
`None` is falsy, a string is truthy iff it is nonempty. -/
def py_truthy : Option String → Bool
  | none => false
  | some s => !s.isEmpty

/-- Observable outcome of one `process_pdf` run: the returned value or the
propagated exception, the file writes performed, how many times the
document handle was closed, and whether a document was opened at all. -/
structure RunResult where
  result : Except String (Option (List String))
  writes : List (String × String)
  closes : ℕ
  opened : Bool
deriving DecidableEq

/-- The `try`-block body of `process_pdf` after the document is open
(ocr.py lines 68-86): run the page loop over indices `0..page_count-1`;
on success, if `output_path` is truthy, delegate to `write_to_txt` and
return `None`, otherwise return the list of page texts. Produces the
result together with the file-write events. -/
def runBody (env : Env) (doc : PDFDocument) (dpi : ℤ) (output_path : Option String) :
    Except String (Option (List String)) × List (String × String) :=
  match processLoop env doc dpi (List.range doc.pages.length) with
  | Except.error e => (Except.error e, [])
  | Except.ok text_pages =>
    if py_truthy output_path then
      match write_to_txt env (output_path.getD "") text_pages with
      | Except.error e => (Except.error e, [])
      | Except.ok ws => (Except.ok none, ws)
    else
      (Except.ok (some text_pages), [])

/-- Embedding of `process_pdf(pdf_path, dpi, output_path)` (ocr.py lines
43-93). `doc = None`; `fitz.open` may raise, in which case the `finally`
block finds `doc is None` and closes nothing. Once the document is open,
every exit path — normal return, page-loop failure, write failure — runs
the `finally` block exactly once, closing the document; the `except`
clause logs and re-raises the same exception unchanged. -/
def process_pdf (env : Env) (pdf_path : String) (dpi : ℤ)
    (output_path : Option String) : RunResult :=
  match env.openDoc pdf_path with
  | Except.error e =>
      { result := Except.error e, writes := [], closes := 0, opened := false }
  | Except.ok doc =>
      let b := runBody env doc dpi output_path
      { result := b.1, writes := b.2, closes := 1, opened := true }

/-- Concrete US-Letter page (612 by 792 points), no transparency, content 0. -/
def pageW0 : PDFPage := { width_pt := 612, height_pt := 792, transparent := false, content := 0 }

/-- Concrete US-Letter page, no transparency, content 1. -/
def pageW1 : PDFPage := { width_pt := 612, height_pt := 792, transparent := false, content := 1 }

/-- Concrete page that declares transparency. -/
def pageT : PDFPage := { width_pt := 612, height_pt := 792, transparent := true, content := 0 }

/-- Concrete two-page document. -/
def docW : PDFDocument := ⟨[pageW0, pageW1]⟩

/-- Concrete one-page document whose single page has content 1. -/
def docX : PDFDocument := ⟨[pageW1]⟩

/-- Concrete environment in which everything succeeds: the recognizer
returns a text derived from the image sample bytes, rendering and writing
never fail. -/
def envW : Env :=
  { openDoc := fun path =>
      if path = "doc.pdf" then Except.ok docW
      else if path = "empty.pdf" then Except.ok ⟨[]⟩
      else Except.error "no such file"
    renderFail := fun _ => none
    samplesOf := fun page _ => [page.content]
    recognize := fun img => Except.ok ("T" ++ toString (img.data.headD 0))
    writeFail := fun _ => none }

/-- Concrete environment in which the recognizer fails, with the identical
error value, on every page except those of content 0: under it, the single
page of `docX` fails, and `docW` fails at page index 1 after succeeding at
page index 0. -/
def envF : Env :=
  { openDoc := fun path =>
      if path = "x.pdf" then Except.ok docX
      else if path = "y.pdf" then Except.ok docW
      else Except.error "no such file"
    renderFail := fun _ => none
    samplesOf := fun page _ => [page.content]
    recognize := fun img =>
      if img.data = [0] then Except.ok "T0" else Except.error "boom"
    writeFail := fun _ => none }

/-! Helper lemmas shared by the claim theorems. -/

theorem string_join_shift (l : List String) :
    ∀ a : String, l.foldl (· ++ ·) a = a ++ l.foldl (· ++ ·) "" := by
  induction l with
  | nil => intro a; simp
  | cons x t ih =>
    intro a
    simp only [List.foldl_cons]
    rw [ih (a ++ x), ih ("" ++ x)]
    simp [String.append_assoc]

theorem string_join_cons (s : String) (l : List String) :
    String.join (s :: l) = s ++ String.join l := by
  simp [String.join, List.foldl_cons]
  exact string_join_shift l s

theorem full_doc_text_from_eq (pages : List String) :
    ∀ n : ℕ, full_doc_text_from n pages
      = String.join ((pages.enumFrom n).map (fun it =>
          "-- Page " ++ toString (it.1 + 1) ++ " --\n" ++ pyStrip it.2 ++ "\n\n")) := by
  induction pages with
  | nil => intro n; rfl
  | cons t rest ih =>
    intro n
    simp only [full_doc_text_from, List.enumFrom, List.map_cons, string_join_cons, ih (n + 1)]

theorem processLoop_ok (env : Env) (doc : PDFDocument) (dpi : ℤ) (f : ℕ → String) :
    ∀ l : List ℕ, (∀ i ∈ l, pageResult env doc dpi i = Except.ok (f i)) →
      processLoop env doc dpi l = Except.ok (l.map f) := by
  intro l
  induction l with
  | nil => intro _; rfl
  | cons a t ih =>
    intro h
    have ha := h a (List.mem_cons_self a t)
    have ht := ih (fun i hi => h i (List.mem_cons_of_mem a hi))
    simp [processLoop, ha, ht, bind, Except.bind, pure, Except.pure]

theorem processLoop_error_first (env : Env) (doc : PDFDocument) (dpi : ℤ) (e : String) :
    ∀ (n s k : ℕ), k < n →
      (∀ j, j < k → ∃ t, pageResult env doc dpi (s + j) = Except.ok t) →
      pageResult env doc dpi (s + k) = Except.error e →
      processLoop env doc dpi (List.range' s n) = Except.error e := by
  intro n
  induction n with
  | zero => intro s k hk _ _; exact absurd hk (Nat.not_lt_zero k)
  | succ m ih =>
    intro s k hk hbefore hfail
    cases k with
    | zero =>
      have hs : pageResult env doc dpi s = Except.error e := by simpa using hfail
      simp [List.range'_succ, processLoop, hs, bind, Except.bind]
    | succ j =>
      obtain ⟨t, ht⟩ := hbefore 0 (Nat.succ_pos j)
      have ht' : pageResult env doc dpi s = Except.ok t := by simpa using ht
      have htail : processLoop env doc dpi (List.range' (s + 1) m) = Except.error e := by
        refine ih (s + 1) j (by omega) (fun i hi => ?_) ?_
        · obtain ⟨u, hu⟩ := hbefore (i + 1) (by omega)
          refine ⟨u, ?_⟩
          have harg : s + 1 + i = s + (i + 1) := by omega
          rw [harg]; exact hu
        · have harg : s + 1 + j = s + (j + 1) := by omega
          rw [harg]; exact hfail
      simp [List.range'_succ, processLoop, ht', htail, bind, Except.bind]

theorem process_pdf_open_ok (env : Env) (p : String) (dpi : ℤ) (op : Option String)
    (doc : PDFDocument) (h : env.openDoc p = Except.ok doc) :
    process_pdf env p dpi op =
      { result := (runBody env doc dpi op).1, writes := (runBody env doc dpi op).2,
        closes := 1, opened := true } := by
  simp [process_pdf, h]

theorem pageResult_envW_docW_zero : pageResult envW docW 72 0 = Except.ok "T0" := by
  simp [pageResult, load_page, _page_to_pil_image, get_pixmap, frombytes, envW, docW,
    pageW0, pageW1, bind, Except.bind, pure, Except.pure]
  decide

theorem pageResult_envW_docW_one : pageResult envW docW 72 1 = Except.ok "T1" := by
  simp [pageResult, load_page, _page_to_pil_image, get_pixmap, frombytes, envW, docW,
    pageW0, pageW1, bind, Except.bind, pure, Except.pure]
  decide

theorem pageResult_envF_docX_zero : pageResult envF docX 72 0 = Except.error "boom" := by
  simp [pageResult, load_page, _page_to_pil_image, get_pixmap, frombytes, envF, docX,
    pageW1, bind, Except.bind, pure, Except.pure]

theorem pageResult_envF_docW_zero : pageResult envF docW 72 0 = Except.ok "T0" := by
  simp [pageResult, load_page, _page_to_pil_image, get_pixmap, frombytes, envF, docW,
    pageW0, pageW1, bind, Except.bind, pure, Except.pure]

theorem pageResult_envF_docW_one : pageResult envF docW 72 1 = Except.error "boom" := by
  simp [pageResult, load_page, _page_to_pil_image, get_pixmap, frombytes, envF, docW,
    pageW0, pageW1, bind, Except.bind, pure, Except.pure]

theorem _page_to_pil_image_ok (env : Env) (page : PDFPage) (dpi : ℤ)
    (hr : env.renderFail page = none) :
    _page_to_pil_image env page dpi
      = Except.ok (frombytes PixMode.RGB
          (round (page.width_pt * ((dpi : ℚ) / 72)))
          (round (page.height_pt * ((dpi : ℚ) / 72)))
          (env.samplesOf page ((dpi : ℚ) / 72))) := by
  simp [_page_to_pil_image, get_pixmap, hr, bind, Except.bind, pure, Except.pure]

theorem processLoop_envW_docW :
    processLoop envW docW 72 (List.range docW.pages.length) = Except.ok ["T0", "T1"] := by
  have hr : List.range docW.pages.length = [0, 1] := by decide
  rw [hr]
  simp [processLoop, pageResult_envW_docW_zero, pageResult_envW_docW_one, bind, Except.bind,
    pure, Except.pure]

theorem processLoop_envF_docX :
    processLoop envF docX 72 (List.range docX.pages.length) = Except.error "boom" := by
  have hr : List.range docX.pages.length = [0] := by decide
  rw [hr]
  simp [processLoop, pageResult_envF_docX_zero, bind, Except.bind]

theorem processLoop_envF_docW :
    processLoop envF docW 72 (List.range docW.pages.length) = Except.error "boom" := by
  have hr : List.range docW.pages.length = [0, 1] := by decide
  rw [hr]
  simp [processLoop, pageResult_envF_docW_zero, pageResult_envF_docW_one, bind, Except.bind,
    pure, Except.pure]

/-- C1, counterexample: a page that declares transparency still renders to an
image of mode RGB, because the code calls `get_pixmap` with `alpha=False`
(ocr.py line 36), so the pixmap never carries an alpha channel and the RGBA
branch of line 38 is unreachable. This refutes the claim that the pixel mode
is RGBA when the source page carries transparency. -/
theorem C1_transparent_page_renders_rgb :
    pageT.transparent = true ∧
    _page_to_pil_image envW pageT 72
      = Except.ok (RasterImage.mk PixMode.RGB 612 792 [0]) := by
  refine ⟨rfl, ?_⟩
  rw [_page_to_pil_image_ok envW pageT 72 rfl]
  simp [frombytes, pageT, envW, round_eq]

/-- C1, amended: every image the page renderer produces has pixel mode RGB,
whatever the transparency of the source page, because the pixmap is
requested with `alpha=False`. -/
theorem C1_mode_always_rgb (env : Env) (page : PDFPage) (dpi : ℤ) (img : RasterImage)
    (h : _page_to_pil_image env page dpi = Except.ok img) :
    img.mode = PixMode.RGB := by
  cases hr : env.renderFail page with
  | some e =>
    simp [_page_to_pil_image, get_pixmap, hr, bind, Except.bind] at h
  | none =>
    rw [_page_to_pil_image_ok env page dpi hr] at h
    injection h with h
    rw [← h]
    rfl

/-- Witness for the amended C1 at a concrete rendered image. -/
theorem C1_mode_always_rgb_witness :
    (RasterImage.mk PixMode.RGB 612 792 [0]).mode = PixMode.RGB := by
  have himg : _page_to_pil_image envW pageW0 72
      = Except.ok (RasterImage.mk PixMode.RGB 612 792 [0]) := by
    rw [_page_to_pil_image_ok envW pageW0 72 rfl]
    simp [frombytes, pageW0, envW, round_eq]
  exact C1_mode_always_rgb envW pageW0 72 (RasterImage.mk PixMode.RGB 612 792 [0]) himg

/-- C2, counterexample: the propagated error does not carry the failing page
index. Under `envF`, processing `docX` fails at page index 0 and processing
`docW` fails at page index 1 (its page 0 succeeds), yet both runs re-raise
the identical error value, so the caller cannot recover the failing page
index from the propagated error; only the originating cause is carried. -/
theorem C2_error_lacks_page_index :
    pageResult envF docX 72 0 = Except.error "boom" ∧
    pageResult envF docW 72 0 = Except.ok "T0" ∧
    pageResult envF docW 72 1 = Except.error "boom" ∧
    (process_pdf envF "x.pdf" 72 none).result = Except.error "boom" ∧
    (process_pdf envF "y.pdf" 72 none).result = Except.error "boom" := by
  refine ⟨pageResult_envF_docX_zero, pageResult_envF_docW_zero, pageResult_envF_docW_one, ?_, ?_⟩
  · rw [process_pdf_open_ok envF "x.pdf" 72 none docX rfl]
    simp [runBody, processLoop_envF_docX]
  · rw [process_pdf_open_ok envF "y.pdf" 72 none docW rfl]
    simp [runBody, processLoop_envF_docW]

/-- C2, amended: when rendering or recognition first fails at page `k`, the
whole run aborts and the originating error is re-raised to the caller
unchanged (the page index is logged, not attached to the error). -/
theorem C2_same_error_reraised (env : Env) (p : String) (dpi : ℤ) (op : Option String)
    (doc : PDFDocument) (k : ℕ) (e : String)
    (hopen : env.openDoc p = Except.ok doc)
    (hk : k < doc.pages.length)
    (hbefore : ∀ j, j < k → ∃ t, pageResult env doc dpi j = Except.ok t)
    (hfail : pageResult env doc dpi k = Except.error e) :
    (process_pdf env p dpi op).result = Except.error e := by
  have hloop : processLoop env doc dpi (List.range doc.pages.length) = Except.error e := by
    rw [List.range_eq_range']
    exact processLoop_error_first env doc dpi e doc.pages.length 0 k hk
      (fun j hj => by simpa using hbefore j hj)
      (by simpa using hfail)
  rw [process_pdf_open_ok env p dpi op doc hopen]
  simp [runBody, hloop]

/-- Witness for the amended C2: a three-argument run failing at page index 1. -/
theorem C2_same_error_reraised_witness :
    (process_pdf envF "y.pdf" 72 none).result = Except.error "boom" := by
  refine C2_same_error_reraised envF "y.pdf" 72 none docW 1 "boom" rfl (by decide)
    (fun j hj => ?_) pageResult_envF_docW_one
  interval_cases j
  exact ⟨"T0", pageResult_envF_docW_zero⟩

/-- C3: on a document whose every page renders and recognizes successfully,
`process_pdf` returns exactly one text per page, in ascending page order
(entry `i` is the recognition result of page `i`), with no page skipped,
duplicated or reordered; and in output-path mode the persisted transcript is
formed from exactly that sequence. -/
theorem C3_every_page_once_in_order (env : Env) (p : String) (dpi : ℤ)
    (doc : PDFDocument) (f : ℕ → String)
    (hopen : env.openDoc p = Except.ok doc)
    (hsucc : ∀ i ∈ List.range doc.pages.length, pageResult env doc dpi i = Except.ok (f i)) :
    (process_pdf env p dpi none).result
        = Except.ok (some ((List.range doc.pages.length).map f)) ∧
    ((List.range doc.pages.length).map f).length = doc.pages.length ∧
    ∀ s : String, s.isEmpty = false → env.writeFail s = none →
      (process_pdf env p dpi (some s)).result = Except.ok none ∧
      (process_pdf env p dpi (some s)).writes
        = [(s, full_doc_text ((List.range doc.pages.length).map f))] := by
  have hloop := processLoop_ok env doc dpi f (List.range doc.pages.length) hsucc
  refine ⟨?_, by simp, ?_⟩
  · rw [process_pdf_open_ok env p dpi none doc hopen]
    simp [runBody, hloop, py_truthy]
  · intro s hs hw
    rw [process_pdf_open_ok env p dpi (some s) doc hopen]
    constructor <;> simp [runBody, hloop, py_truthy, hs, write_to_txt, hw]

/-- Witness for C3 on a concrete two-page document. -/
theorem C3_every_page_once_in_order_witness :
    (process_pdf envW "doc.pdf" 72 none).result = Except.ok (some ["T0", "T1"]) ∧
    (process_pdf envW "doc.pdf" 72 (some "out.txt")).writes
      = [("out.txt", "-- Page 1 --\nT0\n\n-- Page 2 --\nT1\n\n")] := by
  have h := C3_every_page_once_in_order envW "doc.pdf" 72 docW
    (fun i => "T" ++ toString i) rfl ?_
  · refine ⟨?_, ?_⟩
    · rw [h.1]; decide
    · rw [(h.2.2 "out.txt" (by decide) rfl).2]; decide
  · intro i hi
    fin_cases hi
    · exact pageResult_envW_docW_zero
    · exact pageResult_envW_docW_one

/-- C4: the transcript is the in-order concatenation of the blocks
`"-- Page " ++ toString (i+1) ++ " --\n" ++ pyStrip text ++ "\n\n"` over the
zero-based page index `i`, the page text transformed only by the trim; and
on `["Hello", "World"]` the transcript is the exact expected string. -/
theorem C4_transcript_format :
    (∀ pages : List String,
        full_doc_text pages
          = String.join (pages.enum.map (fun it =>
              "-- Page " ++ toString (it.1 + 1) ++ " --\n" ++ pyStrip it.2 ++ "\n\n"))) ∧
    full_doc_text ["Hello", "World"]
      = "-- Page 1 --\nHello\n\n-- Page 2 --\nWorld\n\n" := by
  constructor
  · intro pages
    exact full_doc_text_from_eq pages 0
  · decide

/-- C5, counterexample: the empty string is a given output path, yet the run
returns the in-memory list and persists nothing, because the mode switch
`if output_path:` tests truthiness; this refutes the claim for the given
output path `""`. -/
theorem C5_empty_path_counterexample :
    (process_pdf envW "doc.pdf" 72 (some "")).result = Except.ok (some ["T0", "T1"]) ∧
    (process_pdf envW "doc.pdf" 72 (some "")).writes = [] := by
  rw [process_pdf_open_ok envW "doc.pdf" 72 (some "") docW rfl]
  constructor <;>
    simp [runBody, processLoop_envW_docW, py_truthy,
      show ("" : String).isEmpty = true from rfl]

/-- C5, amended: on a successful run, a nonempty (truthy) output path makes
`process_pdf` persist the formatted transcript to that path and return no
in-memory value, while no output path — or the empty string — makes it
return the ordered page texts and write no file. -/
theorem C5_mode_selection (env : Env) (p : String) (dpi : ℤ)
    (doc : PDFDocument) (f : ℕ → String) (s : String)
    (hopen : env.openDoc p = Except.ok doc)
    (hsucc : ∀ i ∈ List.range doc.pages.length, pageResult env doc dpi i = Except.ok (f i))
    (hs : s.isEmpty = false) (hw : env.writeFail s = none) :
    ((process_pdf env p dpi (some s)).result = Except.ok none ∧
     (process_pdf env p dpi (some s)).writes
       = [(s, full_doc_text ((List.range doc.pages.length).map f))]) ∧
    ((process_pdf env p dpi none).result
       = Except.ok (some ((List.range doc.pages.length).map f)) ∧
     (process_pdf env p dpi none).writes = []) ∧
    ((process_pdf env p dpi (some "")).result
       = Except.ok (some ((List.range doc.pages.length).map f)) ∧
     (process_pdf env p dpi (some "")).writes = []) := by
  have hloop := processLoop_ok env doc dpi f (List.range doc.pages.length) hsucc
  refine ⟨?_, ?_, ?_⟩
  · rw [process_pdf_open_ok env p dpi (some s) doc hopen]
    constructor <;> simp [runBody, hloop, py_truthy, hs, write_to_txt, hw]
  · rw [process_pdf_open_ok env p dpi none doc hopen]
    constructor <;> simp [runBody, hloop, py_truthy]
  · rw [process_pdf_open_ok env p dpi (some "") doc hopen]
    constructor <;>
      simp [runBody, hloop, py_truthy, show ("" : String).isEmpty = true from rfl]

/-- Witness for the amended C5 on a concrete two-page document. -/
theorem C5_mode_selection_witness :
    (process_pdf envW "doc.pdf" 72 (some "out.txt")).result = Except.ok none ∧
    (process_pdf envW "doc.pdf" 72 none).writes = [] := by
  have h := C5_mode_selection envW "doc.pdf" 72 docW
    (fun i => "T" ++ toString i) "out.txt" rfl ?_ (by decide) rfl
  · exact ⟨h.1.1, h.2.1.2⟩
  · intro i hi
    fin_cases hi
    · exact pageResult_envW_docW_zero
    · exact pageResult_envW_docW_one

/-- C6: whenever the document was successfully opened, the `finally` block
closes it exactly once on every exit path — normal return, page failure or
write failure alike. -/
theorem C6_document_closed_exactly_once (env : Env) (p : String) (dpi : ℤ)
    (op : Option String)
    (h : (process_pdf env p dpi op).opened = true) :
    (process_pdf env p dpi op).closes = 1 := by
  unfold process_pdf at h ⊢
  cases henv : env.openDoc p with
  | error e => rw [henv] at h; simp at h
  | ok doc => rfl

/-- Witness for C6: a run that opened its document closed it once. -/
theorem C6_document_closed_exactly_once_witness :
    (process_pdf envW "doc.pdf" 72 none).closes = 1 :=
  C6_document_closed_exactly_once envW "doc.pdf" 72 none rfl

/-- C7: when the page loop fails, the failure propagates, the page texts
accumulated before the failing page are discarded, and no output file is
written, even when an output path was requested. -/
theorem C7_failure_discards_partial_results (env : Env) (p : String) (dpi : ℤ)
    (op : Option String) (doc : PDFDocument) (e : String)
    (hopen : env.openDoc p = Except.ok doc)
    (hfail : processLoop env doc dpi (List.range doc.pages.length) = Except.error e) :
    (process_pdf env p dpi op).result = Except.error e ∧
    (process_pdf env p dpi op).writes = [] := by
  rw [process_pdf_open_ok env p dpi op doc hopen]
  constructor <;> simp [runBody, hfail]

/-- Witness for C7: a run with an output path that fails at its only page
writes nothing. -/
theorem C7_failure_discards_partial_results_witness :
    (process_pdf envF "x.pdf" 72 (some "out.txt")).result = Except.error "boom" ∧
    (process_pdf envF "x.pdf" 72 (some "out.txt")).writes = [] :=
  C7_failure_discards_partial_results envF "x.pdf" 72 (some "out.txt") docX "boom" rfl
    processLoop_envF_docX

/-- C8: a zero-page document is not an error: the run succeeds with an empty
list of page texts, the empty transcript contains no delimiter at all, and
in output-path mode the file is written with empty content. -/
theorem C8_zero_pages_empty_transcript (env : Env) (p : String) (dpi : ℤ)
    (hopen : env.openDoc p = Except.ok ⟨[]⟩) :
    (process_pdf env p dpi none).result = Except.ok (some []) ∧
    full_doc_text [] = "" ∧
    ∀ s : String, s.isEmpty = false → env.writeFail s = none →
      (process_pdf env p dpi (some s)).result = Except.ok none ∧
      (process_pdf env p dpi (some s)).writes = [(s, "")] := by
  refine ⟨?_, rfl, ?_⟩
  · rw [process_pdf_open_ok env p dpi none ⟨[]⟩ hopen]
    simp [runBody, processLoop, py_truthy]
  · intro s hs hw
    rw [process_pdf_open_ok env p dpi (some s) ⟨[]⟩ hopen]
    constructor <;>
      simp [runBody, processLoop, py_truthy, hs, write_to_txt, hw, full_doc_text,
        full_doc_text_from]

/-- Witness for C8 on a concrete zero-page document. -/
theorem C8_zero_pages_empty_transcript_witness :
    (process_pdf envW "empty.pdf" 72 none).result = Except.ok (some []) ∧
    (process_pdf envW "empty.pdf" 72 (some "out.txt")).writes = [("out.txt", "")] := by
  have h := C8_zero_pages_empty_transcript envW "empty.pdf" 72 rfl
  exact ⟨h.1, (h.2.2 "out.txt" (by decide) rfl).2⟩

/-- C9: rendering uses the single scale factor `dpi / 72` on both axes, the
produced dimensions are `round(page_size_pt * zoom)` on each axis, and the
result is deterministic: two successful renders of the same page at the same
dpi are the same image. -/
theorem C9_uniform_zoom_rounded_dims (env : Env) (page : PDFPage) (dpi : ℤ)
    (img img2 : RasterImage) (_hdpi : 0 < dpi)
    (h : _page_to_pil_image env page dpi = Except.ok img)
    (h2 : _page_to_pil_image env page dpi = Except.ok img2) :
    img.width = round (page.width_pt * ((dpi : ℚ) / 72)) ∧
    img.height = round (page.height_pt * ((dpi : ℚ) / 72)) ∧
    img2 = img := by
  cases hr : env.renderFail page with
  | some e =>
    simp [_page_to_pil_image, get_pixmap, hr, bind, Except.bind] at h
  | none =>
    rw [_page_to_pil_image_ok env page dpi hr] at h h2
    injection h with h
    injection h2 with h2
    rw [← h, ← h2]
    exact ⟨rfl, rfl, rfl⟩

/-- Witness for C9 at a concrete page and dpi. -/
theorem C9_uniform_zoom_rounded_dims_witness :
    (RasterImage.mk PixMode.RGB 612 792 [0]).width
        = round (pageW0.width_pt * (((72 : ℤ) : ℚ) / 72)) ∧
    (RasterImage.mk PixMode.RGB 612 792 [0]).height
        = round (pageW0.height_pt * (((72 : ℤ) : ℚ) / 72)) ∧
    RasterImage.mk PixMode.RGB 612 792 [0] = RasterImage.mk PixMode.RGB 612 792 [0] := by
  have himg : _page_to_pil_image envW pageW0 72
      = Except.ok (RasterImage.mk PixMode.RGB 612 792 [0]) := by
    rw [_page_to_pil_image_ok envW pageW0 72 rfl]
    simp [frombytes, pageW0, envW, round_eq]
  exact C9_uniform_zoom_rounded_dims envW pageW0 72 _ _ (by decide) himg himg

/-- C10: the mode switch tests truthiness, not presence: the run with the
empty string as output path is observably identical to the run with no
output path, whatever the environment, document and dpi. -/
theorem C10_empty_path_behaves_as_none (env : Env) (p : String) (dpi : ℤ) :
    process_pdf env p dpi (some "") = process_pdf env p dpi none := by
  cases henv : env.openDoc p with
  | error e => unfold process_pdf; rw [henv]
  | ok doc =>
    have hb : runBody env doc dpi (some "") = runBody env doc dpi none := by
      unfold runBody
      cases processLoop env doc dpi (List.range doc.pages.length) with
      | error e => rfl
      | ok tp => rfl
    rw [process_pdf_open_ok env p dpi (some "") doc henv,
      process_pdf_open_ok env p dpi none doc henv, hb]
